import Mathlib

/-!
Shallow embedding of the batch-offer pricing engine
(`calculateOfferPricing`, `calculateCartTotal`, `formatDiscount`).

Modelling conventions:
- JS numbers are modelled by exact rationals (ℚ); requested quantities and
  batch sizes are counts of units and are modelled by ℕ, matching the
  integer division/modulo the source performs on them.
- A possibly missing or unparsable numeric field is an `Option ℚ`; the
  source coercion `parseFloat(x) || 0` becomes `Option.getD 0` (a parse
  failure gives NaN, which is falsy, hence 0; a parsed 0 is also falsy,
  hence 0; any other parsed value is kept).
- The JS division `total / quantity` is non-finite (NaN or Infinity) when
  `quantity` is 0, so `effectivePricePerUnit` is an `Option ℚ`: `none`
  models the non-finite result of dividing by zero, `some v` a finite
  quotient.
-/

namespace OfferPricing

structure SpecialOffer where
  quantity : Nat
  offerPricePerUnit : Option ℚ
deriving DecidableEq

structure Product where
  price : Option ℚ
  specialOffer : Option SpecialOffer
deriving DecidableEq

structure BreakdownEntry where
  type : String
  quantity : Nat
  pricePerUnit : ℚ
  total : ℚ
deriving DecidableEq

structure PricingResult where
  subtotal : ℚ
  discount : ℚ
  total : ℚ
  itemsAtOfferPrice : Nat
  itemsAtRegularPrice : Nat
  effectivePricePerUnit : Option ℚ
  breakdown : List BreakdownEntry
deriving DecidableEq

/-- Source: `const regularPrice = parseFloat(product.price) || 0`. -/
def regularPriceOf (product : Product) : ℚ :=
  product.price.getD 0

/-- Source: `const batchSize = product.specialOffer?.quantity || 0`. -/
def batchSizeOf (product : Product) : Nat :=
  (product.specialOffer.map SpecialOffer.quantity).getD 0

/-- Source: `const offerPricePerUnit = parseFloat(product.specialOffer?.offerPricePerUnit) || 0`. -/
def offerPriceOf (product : Product) : ℚ :=
  (product.specialOffer.bind SpecialOffer.offerPricePerUnit).getD 0

/-- Source guard: `!product.specialOffer || !batchSize || !offerPricePerUnit || offerType === "regular"`
(JS falsiness of a number is equality with 0; NaN was already normalised away
by the coercions above). -/
def flatGuard (product : Product) (offerType : String) : Prop :=
  product.specialOffer = none ∨ batchSizeOf product = 0 ∨
    offerPriceOf product = 0 ∨ offerType = "regular"

instance (product : Product) (offerType : String) :
    Decidable (flatGuard product offerType) := by
  unfold flatGuard; infer_instance

/-- The early-return record of the source when the guard holds (flat mode). -/
def flatResult (product : Product) (quantity : Nat) : PricingResult :=
  { subtotal := regularPriceOf product * quantity
    discount := 0
    total := regularPriceOf product * quantity
    itemsAtOfferPrice := 0
    itemsAtRegularPrice := quantity
    effectivePricePerUnit := some (regularPriceOf product)
    breakdown := [] }

/-- The batch-based pricing record of the source (the code after the guard). -/
def batchResult (product : Product) (quantity : Nat) : PricingResult :=
  let regularPrice : ℚ := regularPriceOf product
  let batchSize : Nat := batchSizeOf product
  let offerPricePerUnit : ℚ := offerPriceOf product
  let fullBatches : Nat := quantity / batchSize
  let remainingItems : Nat := quantity % batchSize
  let itemsAtOfferPrice : Nat := fullBatches * batchSize
  let itemsAtRegularPrice : Nat := remainingItems
  let offerTotal : ℚ := (itemsAtOfferPrice : ℚ) * offerPricePerUnit
  let regularTotal : ℚ := (itemsAtRegularPrice : ℚ) * regularPrice
  let total : ℚ := offerTotal + regularTotal
  let subtotal : ℚ := (quantity : ℚ) * regularPrice
  let discount : ℚ := subtotal - total
  { subtotal := subtotal
    discount := discount
    total := total
    itemsAtOfferPrice := itemsAtOfferPrice
    itemsAtRegularPrice := itemsAtRegularPrice
    effectivePricePerUnit :=
      if quantity = 0 then none else some (total / (quantity : ℚ))
    breakdown :=
      (if 0 < itemsAtOfferPrice then
        [{ type := "offer"
           quantity := itemsAtOfferPrice
           pricePerUnit := offerPricePerUnit
           total := offerTotal }]
       else []) ++
      (if 0 < itemsAtRegularPrice then
        [{ type := "regular"
           quantity := itemsAtRegularPrice
           pricePerUnit := regularPrice
           total := regularTotal }]
       else []) }

/-- Embedding of `calculateOfferPricing(product, quantity, offerType)`. -/
def calculateOfferPricing (product : Product) (quantity : Nat)
    (offerType : String) : PricingResult :=
  if flatGuard product offerType then flatResult product quantity
  else batchResult product quantity

/-- A cart entry as the source reads it: the item itself carries the product
fields `price` and `specialOffer` together with `quantity` and `offerType`
(`calculateOfferPricing(item, item.quantity, item.offerType)`). -/
structure CartItem where
  price : Option ℚ
  specialOffer : Option SpecialOffer
  quantity : Nat
  offerType : String
deriving DecidableEq

/-- The product embedded in a cart entry: exactly the fields of the entry
that `calculateOfferPricing` reads as its `product` argument. -/
def CartItem.toProduct (item : CartItem) : Product :=
  { price := item.price, specialOffer := item.specialOffer }

/-- Source: `return { ...item, pricing }` — the original entry augmented with
its pricing result. -/
structure PricedItem where
  item : CartItem
  pricing : PricingResult
deriving DecidableEq

structure CartResult where
  subtotal : ℚ
  discount : ℚ
  total : ℚ
  items : List PricedItem
deriving DecidableEq

/-- The per-entry line pricing the aggregator performs:
`calculateOfferPricing(item, item.quantity, item.offerType)`. -/
def linePricingOf (item : CartItem) : PricingResult :=
  calculateOfferPricing item.toProduct item.quantity item.offerType

/-- One step of the aggregation loop: add the subtotal, discount and total of
the entry to the running sums and append the augmented item. -/
def cartStep (acc : ℚ × ℚ × ℚ × List PricedItem) (item : CartItem) :
    ℚ × ℚ × ℚ × List PricedItem :=
  let pricing := linePricingOf item
  (acc.1 + pricing.subtotal, acc.2.1 + pricing.discount,
    acc.2.2.1 + pricing.total, acc.2.2.2 ++ [⟨item, pricing⟩])

/-- Embedding of `calculateCartTotal(cartItems)`: running sums over the items
in order, each item mapped to itself augmented with its pricing. -/
def calculateCartTotal (cartItems : List CartItem) : CartResult :=
  let r := cartItems.foldl cartStep (0, 0, 0, [])
  { subtotal := r.1, discount := r.2.1, total := r.2.2.1, items := r.2.2.2 }

/-- JS `Math.round`: round half toward positive infinity. -/
def jsRound (x : ℚ) : ℤ :=
  Int.floor (x + 1 / 2)

/-- Embedding of `formatDiscount(discount)`. -/
def formatDiscount (discount : ℚ) : String :=
  if 0 < discount then "₹" ++ toString (jsRound discount) ++ " सूट" else ""

/-! Helper lemmas shared by the claim theorems. -/

lemma calculateOfferPricing_of_flat {product : Product} {offerType : String}
    (quantity : Nat) (h : flatGuard product offerType) :
    calculateOfferPricing product quantity offerType = flatResult product quantity := by
  unfold calculateOfferPricing
  rw [if_pos h]

lemma calculateOfferPricing_of_batch {product : Product} {offerType : String}
    (quantity : Nat) (h : ¬ flatGuard product offerType) :
    calculateOfferPricing product quantity offerType = batchResult product quantity := by
  unfold calculateOfferPricing
  rw [if_neg h]

lemma batchResult_itemsAtOfferPrice (product : Product) (quantity : Nat) :
    (batchResult product quantity).itemsAtOfferPrice =
      quantity / batchSizeOf product * batchSizeOf product := rfl

lemma batchResult_itemsAtRegularPrice (product : Product) (quantity : Nat) :
    (batchResult product quantity).itemsAtRegularPrice =
      quantity % batchSizeOf product := rfl

lemma batchResult_total (product : Product) (quantity : Nat) :
    (batchResult product quantity).total =
      ((quantity / batchSizeOf product * batchSizeOf product : Nat) : ℚ) *
          offerPriceOf product +
        ((quantity % batchSizeOf product : Nat) : ℚ) * regularPriceOf product := rfl

lemma batchResult_subtotal (product : Product) (quantity : Nat) :
    (batchResult product quantity).subtotal =
      (quantity : ℚ) * regularPriceOf product := rfl

lemma batchResult_discount (product : Product) (quantity : Nat) :
    (batchResult product quantity).discount =
      (batchResult product quantity).subtotal - (batchResult product quantity).total := rfl

lemma batchResult_effectivePricePerUnit (product : Product) (quantity : Nat) :
    (batchResult product quantity).effectivePricePerUnit =
      if quantity = 0 then none
      else some ((batchResult product quantity).total / (quantity : ℚ)) := rfl

lemma batchResult_breakdown (product : Product) (quantity : Nat) :
    (batchResult product quantity).breakdown =
      (if 0 < quantity / batchSizeOf product * batchSizeOf product then
        [{ type := "offer"
           quantity := quantity / batchSizeOf product * batchSizeOf product
           pricePerUnit := offerPriceOf product
           total := ((quantity / batchSizeOf product * batchSizeOf product : Nat) : ℚ) *
             offerPriceOf product }]
       else []) ++
      (if 0 < quantity % batchSizeOf product then
        [{ type := "regular"
           quantity := quantity % batchSizeOf product
           pricePerUnit := regularPriceOf product
           total := ((quantity % batchSizeOf product : Nat) : ℚ) * regularPriceOf product }]
       else []) := rfl

lemma not_flatGuard_iff {product : Product} {offerType : String} :
    ¬ flatGuard product offerType ↔
      product.specialOffer ≠ none ∧ batchSizeOf product ≠ 0 ∧
        offerPriceOf product ≠ 0 ∧ offerType ≠ "regular" := by
  unfold flatGuard
  push_neg
  rfl

lemma foldl_cartStep (l : List CartItem) (a b c : ℚ) (d : List PricedItem) :
    l.foldl cartStep (a, b, c, d) =
      (a + (l.map fun it => (linePricingOf it).subtotal).sum,
        b + (l.map fun it => (linePricingOf it).discount).sum,
        c + (l.map fun it => (linePricingOf it).total).sum,
        d ++ l.map fun it => PricedItem.mk it (linePricingOf it)) := by
  induction l generalizing a b c d with
  | nil => simp
  | cons x xs ih =>
      simp [List.foldl_cons, cartStep, ih, add_assoc]

lemma calculateCartTotal_eq (l : List CartItem) :
    calculateCartTotal l =
      { subtotal := (l.map fun it => (linePricingOf it).subtotal).sum
        discount := (l.map fun it => (linePricingOf it).discount).sum
        total := (l.map fun it => (linePricingOf it).total).sum
        items := l.map fun it => PricedItem.mk it (linePricingOf it) } := by
  unfold calculateCartTotal
  rw [foldl_cartStep]
  simp

/-! Claim theorems. -/

/-- Claim C1, counterexample: the claim requires the offer price per unit to
be strictly positive for batch pricing, and a flat result (discount 0, empty
breakdown) in every other case. The source guard only tests the coerced
offer price against 0, so a negative offer price (price 10, batch size 2,
offer price per unit -5, quantity 2, offerType bulk) activates batch pricing:
the discount is 30, not 0, and the breakdown is not empty. -/
theorem claim_C1_counterexample :
    ¬ (0 < offerPriceOf ⟨some 10, some ⟨2, some (-5)⟩⟩) ∧
      (calculateOfferPricing ⟨some 10, some ⟨2, some (-5)⟩⟩ 2 "bulk").discount = 30 ∧
      (calculateOfferPricing ⟨some 10, some ⟨2, some (-5)⟩⟩ 2 "bulk").discount ≠ 0 ∧
      (calculateOfferPricing ⟨some 10, some ⟨2, some (-5)⟩⟩ 2 "bulk").breakdown ≠ [] := by
  have hg : ¬ flatGuard ⟨some 10, some ⟨2, some (-5)⟩⟩ "bulk" := by decide
  rw [calculateOfferPricing_of_batch 2 hg]
  refine ⟨by decide, ?_, ?_, ?_⟩ <;>
    norm_num [batchResult, regularPriceOf, batchSizeOf, offerPriceOf]

/-- Claim C1, amended: for offerType in the set containing regular and bulk,
batch pricing activates exactly when a special offer is present, its batch
size is positive, its coerced offer price per unit is NONZERO (not: positive),
and offerType is bulk; in every other case the result is the flat record with
total = subtotal = price * quantity, discount 0, all units at regular price
and an empty breakdown. -/
theorem claim_C1_flat_iff_amended (product : Product) (quantity : Nat)
    (offerType : String) (ht : offerType = "regular" ∨ offerType = "bulk") :
    (¬ flatGuard product offerType ↔
      (product.specialOffer.isSome ∧ 0 < batchSizeOf product ∧
        offerPriceOf product ≠ 0 ∧ offerType = "bulk")) ∧
    (flatGuard product offerType →
      calculateOfferPricing product quantity offerType =
        { subtotal := regularPriceOf product * quantity
          discount := 0
          total := regularPriceOf product * quantity
          itemsAtOfferPrice := 0
          itemsAtRegularPrice := quantity
          effectivePricePerUnit := some (regularPriceOf product)
          breakdown := [] }) := by
  constructor
  · rw [not_flatGuard_iff]
    rcases ht with h | h <;> subst h <;>
      simp [Option.isSome_iff_ne_none, Nat.pos_iff_ne_zero]
  · intro h
    exact calculateOfferPricing_of_flat quantity h

/-- Witness for the amended claim C1 at a concrete input: a product with no
special offer, quantity 3, offerType bulk falls back to the flat record. -/
theorem claim_C1_flat_iff_amended_witness :
    flatGuard ⟨some 100, none⟩ "bulk" ∧
      calculateOfferPricing ⟨some 100, none⟩ 3 "bulk" =
        { subtotal := regularPriceOf ⟨some 100, none⟩ * 3
          discount := 0
          total := regularPriceOf ⟨some 100, none⟩ * 3
          itemsAtOfferPrice := 0
          itemsAtRegularPrice := 3
          effectivePricePerUnit := some (regularPriceOf ⟨some 100, none⟩)
          breakdown := [] } :=
  ⟨by decide,
    (claim_C1_flat_iff_amended ⟨some 100, none⟩ 3 "bulk" (Or.inr rfl)).2 (by decide)⟩

/-- Claim C2: when batch pricing is eligible, the result fields follow the
batch formulas: itemsAtOfferPrice = floor(quantity / batchSize) * batchSize,
itemsAtRegularPrice = quantity mod batchSize, total = offer part plus regular
part, subtotal = quantity * regular price, and discount = subtotal - total. -/
theorem claim_C2_batch_formulas (product : Product) (quantity : Nat)
    (offerType : String) (h : ¬ flatGuard product offerType) :
    (calculateOfferPricing product quantity offerType).itemsAtOfferPrice =
        quantity / batchSizeOf product * batchSizeOf product ∧
      (calculateOfferPricing product quantity offerType).itemsAtRegularPrice =
        quantity % batchSizeOf product ∧
      (calculateOfferPricing product quantity offerType).total =
        ((quantity / batchSizeOf product * batchSizeOf product : Nat) : ℚ) *
            offerPriceOf product +
          ((quantity % batchSizeOf product : Nat) : ℚ) * regularPriceOf product ∧
      (calculateOfferPricing product quantity offerType).subtotal =
        (quantity : ℚ) * regularPriceOf product ∧
      (calculateOfferPricing product quantity offerType).discount =
        (calculateOfferPricing product quantity offerType).subtotal -
          (calculateOfferPricing product quantity offerType).total := by
  rw [calculateOfferPricing_of_batch quantity h]
  exact ⟨batchResult_itemsAtOfferPrice product quantity,
    batchResult_itemsAtRegularPrice product quantity,
    batchResult_total product quantity,
    batchResult_subtotal product quantity,
    batchResult_discount product quantity⟩

/-- Witness for claim C2 at price 100, offer (batch 3, per unit 250),
quantity 7, offerType bulk. -/
theorem claim_C2_batch_formulas_witness :
    ¬ flatGuard ⟨some 100, some ⟨3, some 250⟩⟩ "bulk" ∧
      (calculateOfferPricing ⟨some 100, some ⟨3, some 250⟩⟩ 7 "bulk").itemsAtOfferPrice =
        7 / batchSizeOf ⟨some 100, some ⟨3, some 250⟩⟩ *
          batchSizeOf ⟨some 100, some ⟨3, some 250⟩⟩ :=
  ⟨by decide,
    (claim_C2_batch_formulas ⟨some 100, some ⟨3, some 250⟩⟩ 7 "bulk" (by decide)).1⟩

/-- Claim C3: the unit partition invariant. In every mode the two unit counts
sum to the requested quantity, and under batch eligibility the count of units
at the offer price is a multiple of the batch size. -/
theorem claim_C3_partition_invariant (product : Product) (quantity : Nat)
    (offerType : String) :
    (calculateOfferPricing product quantity offerType).itemsAtOfferPrice +
        (calculateOfferPricing product quantity offerType).itemsAtRegularPrice =
        quantity ∧
      (¬ flatGuard product offerType →
        (calculateOfferPricing product quantity offerType).itemsAtOfferPrice %
            batchSizeOf product = 0) := by
  by_cases h : flatGuard product offerType
  · rw [calculateOfferPricing_of_flat quantity h]
    exact ⟨Nat.zero_add quantity, fun hc => absurd h hc⟩
  · rw [calculateOfferPricing_of_batch quantity h]
    refine ⟨?_, fun _ => ?_⟩
    · rw [batchResult_itemsAtOfferPrice, batchResult_itemsAtRegularPrice]
      exact Nat.div_add_mod' quantity (batchSizeOf product)
    · rw [batchResult_itemsAtOfferPrice]
      exact Nat.mul_mod_left _ _

/-- Witness for claim C3 at price 100, offer (batch 3, per unit 250),
quantity 7, offerType bulk: 6 + 1 = 7 and 6 mod 3 = 0. -/
theorem claim_C3_partition_invariant_witness :
    (calculateOfferPricing ⟨some 100, some ⟨3, some 250⟩⟩ 7 "bulk").itemsAtOfferPrice +
        (calculateOfferPricing ⟨some 100, some ⟨3, some 250⟩⟩ 7 "bulk").itemsAtRegularPrice =
        7 ∧
      (calculateOfferPricing ⟨some 100, some ⟨3, some 250⟩⟩ 7 "bulk").itemsAtOfferPrice %
          batchSizeOf ⟨some 100, some ⟨3, some 250⟩⟩ = 0 := by
  have h := claim_C3_partition_invariant ⟨some 100, some ⟨3, some 250⟩⟩ 7 "bulk"
  exact ⟨h.1, h.2 (by decide)⟩

/-- Claim C4: the cart-level subtotal, discount and total each equal the sum
of the corresponding per-item pricing fields, and permuting the cart leaves
all three cart-level totals unchanged. -/
theorem claim_C4_cart_sums_perm (l₁ l₂ : List CartItem) (h : l₁.Perm l₂) :
    (calculateCartTotal l₁).subtotal =
        (l₁.map fun it => (linePricingOf it).subtotal).sum ∧
      (calculateCartTotal l₁).discount =
        (l₁.map fun it => (linePricingOf it).discount).sum ∧
      (calculateCartTotal l₁).total =
        (l₁.map fun it => (linePricingOf it).total).sum ∧
      (calculateCartTotal l₁).subtotal = (calculateCartTotal l₂).subtotal ∧
      (calculateCartTotal l₁).discount = (calculateCartTotal l₂).discount ∧
      (calculateCartTotal l₁).total = (calculateCartTotal l₂).total := by
  rw [calculateCartTotal_eq l₁, calculateCartTotal_eq l₂]
  refine ⟨rfl, rfl, rfl, ?_, ?_, ?_⟩ <;>
    exact (h.map _).sum_eq

/-- Witness for claim C4 on a concrete two-item cart and its swap. -/
theorem claim_C4_cart_sums_perm_witness :
    (calculateCartTotal
          [⟨some 10, none, 1, "regular"⟩, ⟨some 100, some ⟨3, some 250⟩, 7, "bulk"⟩]).total =
      (calculateCartTotal
          [⟨some 100, some ⟨3, some 250⟩, 7, "bulk"⟩, ⟨some 10, none, 1, "regular"⟩]).total :=
  (claim_C4_cart_sums_perm
      [⟨some 10, none, 1, "regular"⟩, ⟨some 100, some ⟨3, some 250⟩, 7, "bulk"⟩]
      [⟨some 100, some ⟨3, some 250⟩, 7, "bulk"⟩, ⟨some 10, none, 1, "regular"⟩]
      (List.Perm.swap _ _ _)).2.2.2.2.2

/-- Claim C5, counterexample: at price 100, special offer with batch size 3
and offer price per unit 250, quantity 7, offerType bulk, the source charges
the six offer units at 250 each: offerTotal = 1500, total = 1600 and
discount = -900, not the claimed total 600 and discount 100. -/
theorem claim_C5_counterexample :
    (calculateOfferPricing ⟨some 100, some ⟨3, some 250⟩⟩ 7 "bulk").total = 1600 ∧
      (calculateOfferPricing ⟨some 100, some ⟨3, some 250⟩⟩ 7 "bulk").discount = -900 ∧
      (calculateOfferPricing ⟨some 100, some ⟨3, some 250⟩⟩ 7 "bulk").total ≠ 600 ∧
      (calculateOfferPricing ⟨some 100, some ⟨3, some 250⟩⟩ 7 "bulk").discount ≠ 100 := by
  have hg : ¬ flatGuard ⟨some 100, some ⟨3, some 250⟩⟩ "bulk" := by decide
  rw [calculateOfferPricing_of_batch 7 hg]
  refine ⟨?_, ?_, ?_, ?_⟩ <;>
    norm_num [batchResult, regularPriceOf, batchSizeOf, offerPriceOf]

/-- Claim C5, amended: the same scenario with the values the source actually
produces: fullBatches = 2, remainder = 1, itemsAtOfferPrice = 6,
itemsAtRegularPrice = 1, offerTotal = 1500, regularTotal = 100, total = 1600,
subtotal = 700, discount = -900. -/
theorem claim_C5_amended_scenario :
    calculateOfferPricing ⟨some 100, some ⟨3, some 250⟩⟩ 7 "bulk" =
      { subtotal := 700
        discount := -900
        total := 1600
        itemsAtOfferPrice := 6
        itemsAtRegularPrice := 1
        effectivePricePerUnit := some (1600 / 7)
        breakdown :=
          [{ type := "offer", quantity := 6, pricePerUnit := 250, total := 1500 },
            { type := "regular", quantity := 1, pricePerUnit := 100, total := 100 }] } := by
  have hg : ¬ flatGuard ⟨some 100, some ⟨3, some 250⟩⟩ "bulk" := by decide
  rw [calculateOfferPricing_of_batch 7 hg]
  norm_num [batchResult, regularPriceOf, batchSizeOf, offerPriceOf,
    PricingResult.mk.injEq, BreakdownEntry.mk.injEq]

/-- Claim C6: the per-item results of the cart aggregator are exactly the
input entries, in order, each augmented with the line pricing of the product
embedded in that entry (its price and specialOffer fields) at the entry
quantity and offer type; the original entry is carried over unchanged. -/
theorem claim_C6_cart_items_map (l : List CartItem) :
    (calculateCartTotal l).items =
      l.map fun it =>
        PricedItem.mk it
          (calculateOfferPricing it.toProduct it.quantity it.offerType) := by
  rw [calculateCartTotal_eq l]
  rfl

/-- Claim C7: the breakdown always has at most two entries, every entry has a
positive quantity and an offer or regular tag, and when two entries are
present the offer entry comes first. -/
theorem claim_C7_breakdown_shape (product : Product) (quantity : Nat)
    (offerType : String) :
    (calculateOfferPricing product quantity offerType).breakdown.length ≤ 2 ∧
      (∀ e ∈ (calculateOfferPricing product quantity offerType).breakdown,
        0 < e.quantity ∧ (e.type = "offer" ∨ e.type = "regular")) ∧
      (∀ e₁ e₂,
        (calculateOfferPricing product quantity offerType).breakdown = [e₁, e₂] →
          e₁.type = "offer" ∧ e₂.type = "regular") := by
  by_cases h : flatGuard product offerType
  · rw [calculateOfferPricing_of_flat quantity h]
    refine ⟨by simp [flatResult], by simp [flatResult], ?_⟩
    intro e₁ e₂ he
    simp [flatResult] at he
  · rw [calculateOfferPricing_of_batch quantity h, batchResult_breakdown]
    by_cases h1 : 0 < quantity / batchSizeOf product * batchSizeOf product <;>
      by_cases h2 : 0 < quantity % batchSizeOf product <;>
        refine ⟨by simp [h1, h2], by simp [h1, h2], fun e₁ e₂ he => ?_⟩
    all_goals
      simp [h1, h2] at he
      try
        obtain ⟨he₁, he₂⟩ := he
        subst he₁
        subst he₂
        exact ⟨rfl, rfl⟩

/-- Witness for claim C7 at a concrete batch-eligible input with both
breakdown entries present. -/
theorem claim_C7_breakdown_shape_witness :
    (calculateOfferPricing ⟨some 100, some ⟨3, some 250⟩⟩ 7 "bulk").breakdown.length ≤ 2 :=
  (claim_C7_breakdown_shape ⟨some 100, some ⟨3, some 250⟩⟩ 7 "bulk").1

/-- Claim C8: formatDiscount is empty for nonpositive amounts (in particular
at 0 and -5) and for a positive amount is the currency prefix, the amount
rounded to the nearest integer, and the discount-word suffix; at 99.6 the
rendered string contains the integer 100. -/
theorem claim_C8_formatDiscount (d : ℚ) :
    (d ≤ 0 → formatDiscount d = "") ∧
      (0 < d → formatDiscount d = "₹" ++ toString (jsRound d) ++ " सूट") ∧
      formatDiscount 0 = "" ∧
      formatDiscount (-5) = "" ∧
      jsRound (99.6 : ℚ) = 100 ∧
      (∃ pre post, formatDiscount (99.6 : ℚ) = pre ++ "100" ++ post) := by
  have hround : jsRound (99.6 : ℚ) = 100 := by norm_num [jsRound]
  have hpos : (0 : ℚ) < 99.6 := by norm_num
  refine ⟨?_, ?_, by decide, by decide, hround, ⟨"₹", " सूट", ?_⟩⟩
  · intro h
    simp only [formatDiscount]
    rw [if_neg (not_lt.mpr h)]
  · intro h
    simp only [formatDiscount]
    rw [if_pos h]
  · simp only [formatDiscount]
    rw [if_pos hpos, hround]
    decide

/-- Witness for claim C8 at the concrete amounts 7 and -5. -/
theorem claim_C8_formatDiscount_witness :
    formatDiscount 7 = "₹" ++ toString (jsRound 7) ++ " सूट" ∧
      formatDiscount (-5) = "" :=
  ⟨(claim_C8_formatDiscount 7).2.1 (by norm_num),
    (claim_C8_formatDiscount (-5)).2.2.2.1⟩

/-- Claim C9: in flat mode the effective price per unit is the regular price
for every quantity, 0 included; in batch-eligible mode it is the unguarded
quotient total / quantity, which for quantity 0 is the non-finite result of
dividing 0 by 0, modelled here as `none` (no finite value, no 0 sentinel). -/
theorem claim_C9_effective_price (product : Product) (quantity : Nat)
    (offerType : String) :
    (flatGuard product offerType →
      (calculateOfferPricing product quantity offerType).effectivePricePerUnit =
        some (regularPriceOf product)) ∧
      (¬ flatGuard product offerType → quantity = 0 →
        (calculateOfferPricing product quantity offerType).effectivePricePerUnit =
          none) ∧
      (¬ flatGuard product offerType → quantity ≠ 0 →
        (calculateOfferPricing product quantity offerType).effectivePricePerUnit =
          some ((calculateOfferPricing product quantity offerType).total /
            (quantity : ℚ))) := by
  refine ⟨fun h => ?_, fun h hq => ?_, fun h hq => ?_⟩
  · rw [calculateOfferPricing_of_flat quantity h]
    rfl
  · rw [calculateOfferPricing_of_batch quantity h,
      batchResult_effectivePricePerUnit, if_pos hq]
  · rw [calculateOfferPricing_of_batch quantity h,
      batchResult_effectivePricePerUnit, if_neg hq]

/-- Witness for claim C9: a batch-eligible product at quantity 0 returns no
finite effective price per unit, while the flat mode at quantity 0 returns
the regular price. -/
theorem claim_C9_effective_price_witness :
    (calculateOfferPricing ⟨some 100, some ⟨3, some 250⟩⟩ 0 "bulk").effectivePricePerUnit =
        none ∧
      (calculateOfferPricing ⟨some 100, none⟩ 0 "bulk").effectivePricePerUnit =
        some (regularPriceOf ⟨some 100, none⟩) :=
  ⟨(claim_C9_effective_price ⟨some 100, some ⟨3, some 250⟩⟩ 0 "bulk").2.1 (by decide) rfl,
    (claim_C9_effective_price ⟨some 100, none⟩ 0 "bulk").1 (by decide)⟩

/-- Claim C10: with a special offer present, a positive batch size and a
positive offer price per unit, ANY offerType other than the string regular
activates batch pricing and yields exactly the result of offerType bulk,
because the source guard only compares offerType against regular. -/
theorem claim_C10_any_nonregular_offerType (product : Product) (quantity : Nat)
    (offerType : String) (h₁ : product.specialOffer.isSome)
    (h₂ : 0 < batchSizeOf product) (h₃ : 0 < offerPriceOf product)
    (h₄ : offerType ≠ "regular") :
    ¬ flatGuard product offerType ∧
      calculateOfferPricing product quantity offerType =
        calculateOfferPricing product quantity "bulk" := by
  have hg : ¬ flatGuard product offerType := by
    rw [not_flatGuard_iff]
    exact ⟨Option.isSome_iff_ne_none.mp h₁, Nat.pos_iff_ne_zero.mp h₂, ne_of_gt h₃, h₄⟩
  have hb : ¬ flatGuard product "bulk" := by
    rw [not_flatGuard_iff]
    refine ⟨Option.isSome_iff_ne_none.mp h₁, Nat.pos_iff_ne_zero.mp h₂, ne_of_gt h₃, ?_⟩
    decide
  rw [calculateOfferPricing_of_batch quantity hg,
    calculateOfferPricing_of_batch quantity hb]
  exact ⟨hg, rfl⟩

/-- Witness for claim C10 with the offerType string premium, which is neither
regular nor bulk. -/
theorem claim_C10_any_nonregular_offerType_witness :
    calculateOfferPricing ⟨some 100, some ⟨3, some 250⟩⟩ 7 "premium" =
      calculateOfferPricing ⟨some 100, some ⟨3, some 250⟩⟩ 7 "bulk" :=
  (claim_C10_any_nonregular_offerType ⟨some 100, some ⟨3, some 250⟩⟩ 7 "premium"
      (by decide) (by decide) (by decide) (by decide)).2

end OfferPricing
